import Mathlib

/-!
Verification of the `IrisAlerter` component (`elastalert/alerters/iris.py`):
field resolution, template formatting, payload building, and the
alert/case submission protocol with per-IOC linking.

Modelling conventions:
* JSON-like Python values are the inductive `Value`; Python dicts are
  association lists with unique keys and insertion order preserved.
* `None` is `Value.vnull`; at lookup sites Python's `is None` checks are
  mirrored by `Option`-valued lookups that normalise a stored null to `none`
  (indistinguishable from absence in the Python source).
* The HTTP transport is an oracle `net : Nat → HttpResult` giving the
  response (or a transport exception) to the n-th POST of the invocation.
  Headers and TLS-verification options are uniform across the calls of one
  invocation and do not affect the modelled control flow, so they are not
  carried on requests.
* Nondeterministic inputs (wall-clock time, the uuid4 prefix) and the
  capabilities inherited from the `Alerter` base class (`create_title`,
  `create_alert_body`, supplied by the caller per the spec) are explicit
  parameters.
-/

/-- JSON-like values as manipulated by the Python source. -/
inductive Value where
  | vnull
  | vbool (b : Bool)
  | vint (n : Int)
  | vstr (s : String)
  | vlist (items : List Value)
  | vdict (fields : List (String × Value))
deriving Repr

/-- The character `\x7b` (left brace), kept as a named constant. -/
def lbrace : Char := Char.ofNat 123

/-- The character `\x7d` (right brace), kept as a named constant. -/
def rbrace : Char := Char.ofNat 125

/-- First value stored under key `k` in a Python dict (association list). -/
def lookupDict (d : List (String × Value)) (k : String) : Option Value :=
  match d with
  | [] => none
  | (k2, v) :: rest => if k2 = k then some v else lookupDict rest k

/-- Python `d.get(k, dflt)`: the stored value (even a stored null) or the default. -/
def dictGetD (d : List (String × Value)) (k : String) (dflt : Value) : Value :=
  (lookupDict d k).getD dflt

/-- Python `d[k] = v`: replace in place when the key exists, else append.
This mirrors CPython's insertion-order semantics. -/
def dictSet (d : List (String × Value)) (k : String) (v : Value) : List (String × Value) :=
  if (lookupDict d k).isSome then
    d.map (fun kv => if kv.1 = k then (kv.1, v) else kv)
  else d ++ [(k, v)]

/-- Python truthiness of a value (`bool(v)`). -/
def truthy : Value → Bool
  | Value.vnull => false
  | Value.vbool b => b
  | Value.vint n => n != 0
  | Value.vstr s => !s.data.isEmpty
  | Value.vlist items => !items.isEmpty
  | Value.vdict fields => !fields.isEmpty

/-- Python `", ".join`-style concatenation. -/
def joinSep (sep : String) : List String → String
  | [] => ""
  | s :: rest => rest.foldl (fun acc x => acc ++ sep ++ x) s

mutual
/-- Python `repr` of a value (string quoting written with `\x27`). -/
def pyRepr : Value → String
  | Value.vnull => "None"
  | Value.vbool true => "True"
  | Value.vbool false => "False"
  | Value.vint n => toString n
  | Value.vstr s => "\x27" ++ s ++ "\x27"
  | Value.vlist items => "[" ++ joinSep ", " (pyReprList items) ++ "]"
  | Value.vdict fields => "\x7b" ++ joinSep ", " (pyReprFields fields) ++ "\x7d"

def pyReprList : List Value → List String
  | [] => []
  | v :: rest => pyRepr v :: pyReprList rest

def pyReprFields : List (String × Value) → List String
  | [] => []
  | (k, v) :: rest => ("\x27" ++ k ++ "\x27: " ++ pyRepr v) :: pyReprFields rest
end

/-- Python `str` of a value: identity on strings, `repr`-style elsewhere. -/
def pyStr : Value → String
  | Value.vstr s => s
  | v => pyRepr v

/-- Python `term.split(".")` on the character list (structural, so it reduces). -/
def splitPathAux (acc : List Char) : List Char → List String
  | [] => [String.mk acc.reverse]
  | c :: rest =>
    if c = '.' then String.mk acc.reverse :: splitPathAux [] rest
    else splitPathAux (c :: acc) rest

def splitPath (cs : List Char) : List String := splitPathAux [] cs

/-- Traverse a dotted path through nested dicts. -/
def lookupPath : Value → List String → Option Value
  | v, [] => some v
  | Value.vdict d, k :: rest =>
    match lookupDict d k with
    | some v2 => lookupPath v2 rest
    | none => none
  | _, _ :: _ => none

/-- Modelled from the spec: `lookup_es_key` of `elastalert.util` is not among
the provided sources; per the spec it looks a field name up as a dotted path
inside the match record, yielding the Python `None` sentinel when the path is
absent. A stored null is that same sentinel, hence normalised to `none`. -/
def lookup_es_key (m : Value) (term : String) : Option Value :=
  match lookupPath m (splitPath term.data) with
  | some Value.vnull => none
  | r => r

/-- State of a constructed `IrisAlerter` as set up by `__init__`. -/
structure IrisAlerter where
  rule : List (String × Value)
  url : String
  api_token : Value
  customer_id : Value
  ca_cert : Value
  ignore_ssl_errors : Value
  description : Value
  overwrite_timestamp : Value
  type : String
  case_template_id : Value
  alert_note : Value
  alert_source : Value
  alert_tags : Value
  alert_status_id : Value
  alert_source_link : Value
  alert_severity_id : Value
  alert_context : Value
  iocs : Value

/-- `IrisAlerter.__init__`: each attribute is `rule.get` with the source's
default. `type` is kept as the string the mode check operates on (a
non-string configured mode would raise a `TypeError` at the containment
check in Python and is outside the modelled domain). -/
def IrisAlerter.ofRule (rule : List (String × Value)) : IrisAlerter :=
  { rule := rule
    url := "https://" ++ pyStr (dictGetD rule "iris_host" Value.vnull)
    api_token := dictGetD rule "iris_api_token" Value.vnull
    customer_id := dictGetD rule "iris_customer_id" (Value.vint 1)
    ca_cert := dictGetD rule "iris_ca_cert" Value.vnull
    ignore_ssl_errors := dictGetD rule "iris_ignore_ssl_errors" (Value.vbool false)
    description := dictGetD rule "iris_description" Value.vnull
    overwrite_timestamp := dictGetD rule "iris_overwrite_timestamp" (Value.vbool false)
    type := pyStr (dictGetD rule "iris_type" (Value.vstr "alert"))
    case_template_id := dictGetD rule "iris_case_template_id" Value.vnull
    alert_note := dictGetD rule "iris_alert_note" Value.vnull
    alert_source := dictGetD rule "iris_alert_source" (Value.vstr "ElastAlert2")
    alert_tags := dictGetD rule "iris_alert_tags" Value.vnull
    alert_status_id := dictGetD rule "iris_alert_status_id" (Value.vint 2)
    alert_source_link := dictGetD rule "iris_alert_source_link" Value.vnull
    alert_severity_id := dictGetD rule "iris_alert_severity_id" (Value.vint 1)
    alert_context := dictGetD rule "iris_alert_context" Value.vnull
    iocs := dictGetD rule "iris_iocs" Value.vnull }

/-- `IrisAlerter.lookup_field`: match value first, then the rule option under
the same name, finally the supplied default. -/
def IrisAlerter.lookup_field (a : IrisAlerter) (m : Value) (field_name : String)
    (dflt : Value) : Value :=
  match lookup_es_key m field_name with
  | some v => v
  | none => dictGetD a.rule field_name dflt

/-!
### The template formatter

`format_string_with_match` substitutes every occurrence of the regular
expression `\{0\[([^\]]+)\]\}` by the resolved field value. The regex is
embedded as a left-to-right character scanner: at each position the engine
either matches a full token (one-or-more non-`]` characters, terminated by
`]\x7d`, after the opening `\x7b0[`) or advances one character.
-/

/-- After the first `]` of a candidate token the regex requires a closing
brace; on success the remainder after it is returned. -/
def fieldClose : List Char → Option (List Char × List Char)
  | [] => none
  | c2 :: rest2 => if c2 = rbrace then some ([], rest2) else none

/-- After `\x7b0[`: consume the characters of `([^\]]+)\]\x7d`, returning the
captured field characters (possibly empty here; non-emptiness is checked by
`fieldSpan`) and the remainder after the closing brace. -/
def fieldSpanGo : List Char → Option (List Char × List Char)
  | [] => none
  | c :: rest =>
    if c = ']' then fieldClose rest
    else (fieldSpanGo rest).map (fun p => (c :: p.1, p.2))

/-- `([^\]]+)\]\x7d`: like `fieldSpanGo` but the capture must be non-empty. -/
def fieldSpan : List Char → Option (List Char × List Char)
  | [] => none
  | c :: rest => if c = ']' then none else fieldSpanGo (c :: rest)

/-- Token match attempt at the current position: the full `\{0\[([^\]]+)\]\}`
pattern, returning the captured field name and the remainder. -/
def tokenAt (cs : List Char) : Option (String × List Char) :=
  match cs with
  | c1 :: c2 :: c3 :: rest =>
    if c1 = lbrace ∧ c2 = '0' ∧ c3 = '[' then
      (fieldSpan rest).map (fun p => (String.mk p.1, p.2))
    else none
  | _ => none

theorem fieldClose_length {cs f r} (h : fieldClose cs = some (f, r)) :
    r.length < cs.length := by
  match cs with
  | [] => simp [fieldClose] at h
  | c2 :: rest2 =>
    simp only [fieldClose] at h
    split at h
    · cases h; simp
    · cases h

theorem fieldSpanGo_length {cs f r} (h : fieldSpanGo cs = some (f, r)) :
    r.length < cs.length := by
  induction cs generalizing f r with
  | nil => simp [fieldSpanGo] at h
  | cons c rest ih =>
    simp only [fieldSpanGo] at h
    split at h
    · have := fieldClose_length h
      simpa using Nat.lt_succ_of_lt this
    · match hgo : fieldSpanGo rest with
      | none => rw [hgo] at h; cases h
      | some p =>
        rw [hgo] at h
        cases h
        have := ih (f := p.1) (r := p.2) (by rw [hgo])
        simpa using Nat.lt_succ_of_lt this

theorem fieldSpan_length {cs f r} (h : fieldSpan cs = some (f, r)) :
    r.length < cs.length := by
  match cs with
  | [] => simp [fieldSpan] at h
  | c :: rest =>
    simp only [fieldSpan] at h
    split at h
    · cases h
    · exact fieldSpanGo_length h

theorem tokenAt_length {cs : List Char} {p : String × List Char}
    (h : tokenAt cs = some p) : p.2.length < cs.length := by
  match cs with
  | [] => simp [tokenAt] at h
  | [c1] => simp [tokenAt] at h
  | [c1, c2] => simp [tokenAt] at h
  | c1 :: c2 :: c3 :: rest =>
    simp only [tokenAt] at h
    split at h
    · match hsp : fieldSpan rest with
      | none => rw [hsp] at h; cases h
      | some q =>
        rw [hsp] at h
        cases h
        have := fieldSpan_length hsp
        simp only [List.length_cons]
        omega
    · cases h

/-- `replace_field` (the substitution callback inside
`format_string_with_match`): list values are joined with `", "` after `str`
conversion, scalars are `str`-converted, an unresolvable field yields the
visible `<MISSING: ...>` marker. -/
def replace_field (m0 : Value) (field_name : String) : String :=
  match lookup_es_key m0 field_name with
  | some (Value.vlist items) => joinSep ", " (items.map pyStr)
  | some v => pyStr v
  | none => "<MISSING: " ++ field_name ++ ">"

/-- Fuelled scanner for `re.sub(pattern, replace_field, s)`: each step either
substitutes a token or copies one character, so fuel = input length suffices
(`substRe` below). -/
def substReF (m0 : Value) : Nat → List Char → List Char
  | 0, cs => cs
  | _ + 1, [] => []
  | fuel + 1, c :: rest =>
    match tokenAt (c :: rest) with
    | some p => (replace_field m0 p.1).data ++ substReF m0 fuel p.2
    | none => c :: substReF m0 fuel rest

/-- `re.sub(r'\{0\[([^\]]+)\]\}', replace_field, s)` over the characters. -/
def substRe (m0 : Value) (cs : List Char) : List Char :=
  substReF m0 cs.length cs

/-- `IrisAlerter.format_string_with_match`: `None` passes through, otherwise
the template is `str`-converted and every token is substituted. Only the
first match record is consulted (Lean reserves the identifier `matches`, so
the parameter is named `matchList` throughout). -/
def format_string_with_match (template_string : Value) (matchList : List Value) : Value :=
  match template_string with
  | Value.vnull => Value.vnull
  | t => Value.vstr (String.mk (substRe (matchList.headD (Value.vdict [])) (pyStr t).data))

/-- Python `needle in hay` substring containment. -/
def hasSubstr (needle : List Char) : List Char → Bool
  | [] => needle.isEmpty
  | c :: rest => needle.isPrefixOf (c :: rest) || hasSubstr needle rest

/-- Whether the token regex matches anywhere in the string (the formal
reading of "the template contains a `\x7b0[...]\x7d` token"). -/
def hasToken : List Char → Bool
  | [] => false
  | c :: rest => (tokenAt (c :: rest)).isSome || hasToken rest

/-!
### Payload builders
-/

/-- `make_alert_context_records`: each configured context entry stores, under
the caller-defined key, the `str`-converted resolution of the named field
(default the empty string). Python iterates a dict (unique keys). -/
def IrisAlerter.make_alert_context_records (a : IrisAlerter) (matchList : List Value) :
    List (String × Value) :=
  match a.alert_context with
  | Value.vdict entries =>
    entries.map (fun kv =>
      (kv.1, Value.vstr (pyStr (a.lookup_field (matchList.headD (Value.vdict []))
        (pyStr kv.2) (Value.vstr "")))))
  | _ => []

/-- The IOC templates as dicts. Python iterates `self.iocs` directly; a
non-list configuration (or non-dict entry) would raise a `TypeError` /
`AttributeError` and is outside the modelled domain. -/
def IrisAlerter.iocDicts (a : IrisAlerter) : List (List (String × Value)) :=
  match a.iocs with
  | Value.vlist rs => rs.map (fun r => match r with | Value.vdict d => d | _ => [])
  | _ => []

/-- Resolution of one IOC template's `ioc_value` field path against the first
match record (`lookup_es_key(matches[0], record['ioc_value'])`). A record
without an `ioc_value` key would raise a `KeyError` in Python and is outside
the modelled domain (here its path reads as `str(None)`). -/
def IrisAlerter.resolveIoc (_a : IrisAlerter) (matchList : List Value)
    (record : List (String × Value)) : Option Value :=
  lookup_es_key (matchList.headD (Value.vdict []))
    (pyStr (dictGetD record "ioc_value" Value.vnull))

/-- `make_iocs_records`: copy each template, overwrite `ioc_value` with the
resolved value, keep the record only when that value is not `None`. -/
def IrisAlerter.make_iocs_records (a : IrisAlerter) (matchList : List Value) :
    List (List (String × Value)) :=
  (a.iocDicts).filterMap (fun record =>
    match a.resolveIoc matchList record with
    | some v => some (dictSet record "ioc_value" v)
    | none => none)

/-- Python `matches[0].get('@timestamp')` (plain dict `.get`, not a dotted
lookup). -/
def matchGet (m : Value) (k : String) : Value :=
  match m with
  | Value.vdict d => dictGetD d k Value.vnull
  | _ => Value.vnull

/-- `make_alert`. `createTitle` and `createAlertBody` stand for the
`create_title` / `create_alert_body` capabilities inherited from the base
`Alerter` (external collaborators per the spec); `now` is
`datetime.now().strftime("%Y-%m-%dT%H:%M:%S")`. -/
def IrisAlerter.make_alert (a : IrisAlerter)
    (createTitle createAlertBody : List Value → Value) (now : String)
    (matchList : List Value) : List (String × Value) :=
  let event_timestamp : Value :=
    if truthy a.overwrite_timestamp then matchGet (matchList.headD (Value.vdict [])) "@timestamp"
    else Value.vstr now
  let formatted_description := format_string_with_match a.description matchList
  let formatted_alert_note := format_string_with_match a.alert_note matchList
  let formatted_alert_tags := format_string_with_match a.alert_tags matchList
  let alert_title0 := createTitle matchList
  let alert_title :=
    if hasSubstr [lbrace, '0', '['] (pyStr alert_title0).data then
      format_string_with_match alert_title0 matchList
    else alert_title0
  let alert_data : List (String × Value) := [
    ("alert_title", alert_title),
    ("alert_description", formatted_description),
    ("alert_source", a.alert_source),
    ("alert_severity_id", a.alert_severity_id),
    ("alert_status_id", a.alert_status_id),
    ("alert_source_event_time", event_timestamp),
    ("alert_note", formatted_alert_note),
    ("alert_tags", formatted_alert_tags),
    ("alert_customer_id", a.customer_id)]
  let alert_data :=
    if truthy a.description = false then
      dictSet alert_data "alert_description" (createAlertBody matchList)
    else alert_data
  let alert_data :=
    if truthy a.alert_source_link then
      dictSet alert_data "alert_source_link" a.alert_source_link
    else alert_data
  let alert_data :=
    if truthy a.iocs then
      dictSet alert_data "alert_iocs"
        (Value.vlist ((a.make_iocs_records matchList).map Value.vdict))
    else alert_data
  let alert_data :=
    if truthy a.alert_context then
      dictSet alert_data "alert_context"
        (Value.vdict (a.make_alert_context_records matchList))
    else alert_data
  alert_data

/-- `make_case`: the case payload plus the IOC records to attach afterwards.
`socSuffix` stands for `str(uuid.uuid4())[0:6]`. -/
def IrisAlerter.make_case (a : IrisAlerter) (socSuffix : String)
    (matchList : List Value) : List (String × Value) × List (List (String × Value)) :=
  let case_data : List (String × Value) := [
    ("case_soc_id", Value.vstr ("SOC_" ++ socSuffix)),
    ("case_customer", a.customer_id),
    ("case_name", dictGetD a.rule "name" Value.vnull),
    ("case_description", a.description)]
  let iocs := if truthy a.iocs then a.make_iocs_records matchList else []
  let case_data :=
    if truthy a.case_template_id then
      dictSet case_data "case_template_id" a.case_template_id
    else case_data
  (case_data, iocs)

/-!
### The submission orchestrator
-/

/-- One HTTP POST as issued by the alerter (headers and TLS options are
uniform per invocation and elided). -/
structure HttpRequest where
  url : String
  body : Value

/-- A synchronous HTTP response: status code and parsed JSON body. -/
structure HttpResponse where
  status_code : Nat
  body : Value

/-- Result of one POST: a response, or a transport-level `RequestException`. -/
inductive HttpResult where
  | ok (resp : HttpResponse)
  | exn (msg : String)

/-- How one invocation of `alert` terminates: normally, with an
`EAException` (the SubmissionError of the spec's taxonomy), or with an
`AttributeError` escaping the documented taxonomy. -/
inductive AlertOutcome where
  | success
  | eaException (msg : String)
  | attributeError (msg : String)

/-- Python `v.get(k, dflt)` on an arbitrary value: dict lookup, or an
`AttributeError` when the receiver is not a dict (quotes of the Python
message elided). -/
def pyGet (v : Value) (k : String) (dflt : Value) : Except String Value :=
  match v with
  | Value.vdict fields => Except.ok (dictGetD fields k dflt)
  | Value.vnull => Except.error "AttributeError: NoneType object has no attribute get"
  | Value.vbool _ => Except.error "AttributeError: bool object has no attribute get"
  | Value.vint _ => Except.error "AttributeError: int object has no attribute get"
  | Value.vstr _ => Except.error "AttributeError: str object has no attribute get"
  | Value.vlist _ => Except.error "AttributeError: list object has no attribute get"

/-- The request attaching one IOC record (with the case id merged in under
`cid`) to a case. -/
def mkIocReq (a : IrisAlerter) (case_id : Value) (ioc : List (String × Value)) :
    HttpRequest :=
  ⟨a.url ++ "/case/ioc/add", Value.vdict (dictSet ioc "cid" case_id)⟩

/-- The per-IOC submission loop of the case branch: merge the case id into
the record, POST it, fail fast on a non-200 response or transport error.
`n` is the index of the next POST in the invocation, `reqs` the requests
already issued. -/
def iocLoop (a : IrisAlerter) (case_id : Value) (net : Nat → HttpResult) :
    Nat → List (List (String × Value)) → List HttpRequest →
    List HttpRequest × AlertOutcome
  | _, [], reqs => (reqs, AlertOutcome.success)
  | n, ioc :: rest, reqs =>
    let req := mkIocReq a case_id ioc
    match net n with
    | HttpResult.exn e =>
      (reqs ++ [req], AlertOutcome.eaException
        ("Error when adding IOC to the case " ++ pyStr case_id ++ ": " ++ e))
    | HttpResult.ok resp =>
      if resp.status_code ≠ 200 then
        (reqs ++ [req], AlertOutcome.eaException
          ("Unable to add a new IOC to the case " ++ pyStr case_id))
      else iocLoop a case_id net (n + 1) rest (reqs ++ [req])

/-- `IrisAlerter.alert`: mode dispatch on substring containment, the POSTs
issued (in order) and the final outcome. `net i` answers the i-th POST of
this invocation. -/
def IrisAlerter.alert (a : IrisAlerter)
    (createTitle createAlertBody : List Value → Value) (now socSuffix : String)
    (net : Nat → HttpResult) (matchList : List Value) :
    List HttpRequest × AlertOutcome :=
  if hasSubstr ("alert".data) a.type.data then
    let alert_data := a.make_alert createTitle createAlertBody now matchList
    let req : HttpRequest := ⟨a.url ++ "/alerts/add", Value.vdict alert_data⟩
    match net 0 with
    | HttpResult.exn e =>
      ([req], AlertOutcome.eaException ("Error posting alert to Iris: " ++ e))
    | HttpResult.ok resp =>
      if resp.status_code ≠ 200 then
        ([req], AlertOutcome.eaException
          ("Cannot create a new alert: " ++ toString resp.status_code))
      else ([req], AlertOutcome.success)
  else if hasSubstr ("case".data) a.type.data then
    let cd := a.make_case socSuffix matchList
    let req : HttpRequest := ⟨a.url ++ "/manage/cases/add", Value.vdict cd.1⟩
    match net 0 with
    | HttpResult.exn e =>
      ([req], AlertOutcome.eaException ("Error posting the case to Iris: " ++ e))
    | HttpResult.ok resp =>
      if resp.status_code = 200 then
        match pyGet resp.body "data" (Value.vstr "") with
        | Except.error e => ([req], AlertOutcome.attributeError e)
        | Except.ok dataVal =>
          match pyGet dataVal "case_id" Value.vnull with
          | Except.error e => ([req], AlertOutcome.attributeError e)
          | Except.ok case_id => iocLoop a case_id net 1 cd.2 [req]
      else
        ([req], AlertOutcome.eaException
          ("Cannot create a new case: " ++ toString resp.status_code))
  else ([], AlertOutcome.success)

/-- `get_info`. -/
def IrisAlerter.get_info (a : IrisAlerter) : List (String × Value) :=
  [("type", Value.vstr "IrisAlerter"), ("iris_api_endpoint", Value.vstr a.url)]

/-!
### Basic lemmas about the embedding
-/

theorem string_mk_data (s : String) : String.mk s.data = s := rfl

theorem substReF_congr (m0 : Value) :
    ∀ f1 f2 cs, cs.length ≤ f1 → cs.length ≤ f2 →
      substReF m0 f1 cs = substReF m0 f2 cs := by
  intro f1
  induction f1 with
  | zero =>
    intro f2 cs h1 _
    have : cs = [] := List.eq_nil_of_length_eq_zero (Nat.le_zero.mp h1)
    subst this
    cases f2 <;> rfl
  | succ f1 ih =>
    intro f2 cs h1 h2
    match cs with
    | [] => cases f2 <;> rfl
    | c :: rest =>
      match f2, h2 with
      | g + 1, h2 =>
        simp only [substReF]
        cases htok : tokenAt (c :: rest) with
        | some p =>
          have hlt : p.2.length < rest.length + 1 := by
            simpa using tokenAt_length htok
          simp only [List.length_cons] at h1 h2
          dsimp only
          rw [ih g p.2 (by omega) (by omega)]
        | none =>
          simp only [List.length_cons] at h1 h2
          dsimp only
          rw [ih g rest (by omega) (by omega)]

theorem substRe_cons_none (m0 : Value) {c : Char} {rest : List Char}
    (h : tokenAt (c :: rest) = none) :
    substRe m0 (c :: rest) = c :: substRe m0 rest := by
  unfold substRe
  simp only [List.length_cons, substReF, h]

theorem substRe_cons_some (m0 : Value) {c : Char} {rest : List Char}
    {p : String × List Char} (h : tokenAt (c :: rest) = some p) :
    substRe m0 (c :: rest) = (replace_field m0 p.1).data ++ substRe m0 p.2 := by
  have hlt : p.2.length < rest.length + 1 := by simpa using tokenAt_length h
  unfold substRe
  simp only [List.length_cons, substReF, h]
  rw [substReF_congr m0 rest.length p.2.length p.2 (by omega) (by omega)]

theorem tokenAt_none_of_ne_lbrace {c : Char} (rest : List Char) (h : c ≠ lbrace) :
    tokenAt (c :: rest) = none := by
  match rest with
  | [] => rfl
  | [c2] => rfl
  | c2 :: c3 :: rest2 =>
    simp only [tokenAt]
    rw [if_neg]
    intro hh
    exact h hh.1

theorem substRe_append_of_no_lbrace (m0 : Value) (pre cs : List Char)
    (h : ∀ c ∈ pre, c ≠ lbrace) :
    substRe m0 (pre ++ cs) = pre ++ substRe m0 cs := by
  induction pre with
  | nil => rfl
  | cons c pre ih =>
    have hc : c ≠ lbrace := h c (by simp)
    rw [List.cons_append,
      substRe_cons_none m0 (tokenAt_none_of_ne_lbrace (pre ++ cs) hc),
      ih (fun x hx => h x (by simp [hx]))]
    rfl

theorem fieldSpanGo_spec (f post : List Char) (hf : ∀ c ∈ f, c ≠ ']') :
    fieldSpanGo (f ++ ']' :: rbrace :: post) = some (f, post) := by
  induction f with
  | nil => simp [fieldSpanGo, fieldClose]
  | cons c f ih =>
    have hc : c ≠ ']' := hf c (by simp)
    have ih2 := ih (fun x hx => hf x (by simp [hx]))
    simp only [List.cons_append, fieldSpanGo, if_neg hc, List.append_eq, ih2]
    rfl

theorem tokenAt_token (f post : List Char) (hne : f ≠ [])
    (hf : ∀ c ∈ f, c ≠ ']') :
    tokenAt (lbrace :: '0' :: '[' :: (f ++ ']' :: rbrace :: post)) =
      some (String.mk f, post) := by
  simp only [tokenAt, if_pos (And.intro rfl (And.intro rfl rfl))]
  match f, hne with
  | c :: f2, _ =>
    have hc : c ≠ ']' := hf c (by simp)
    simp only [List.cons_append, fieldSpan, if_neg hc]
    rw [show c :: (f2 ++ ']' :: rbrace :: post) = (c :: f2) ++ ']' :: rbrace :: post
        from rfl,
      fieldSpanGo_spec (c :: f2) post hf]
    rfl

theorem substRe_token (m0 : Value) (f post : List Char) (hne : f ≠ [])
    (hf : ∀ c ∈ f, c ≠ ']') :
    substRe m0 (lbrace :: '0' :: '[' :: (f ++ ']' :: rbrace :: post)) =
      (replace_field m0 (String.mk f)).data ++ substRe m0 post := by
  exact substRe_cons_some m0 (tokenAt_token f post hne hf)

theorem substRe_of_not_hasToken (m0 : Value) :
    ∀ cs, hasToken cs = false → substRe m0 cs = cs := by
  intro cs
  induction cs with
  | nil => intro _; rfl
  | cons c rest ih =>
    intro h
    simp only [hasToken, Bool.or_eq_false_iff] at h
    obtain ⟨h1, h2⟩ := h
    have hn : tokenAt (c :: rest) = none := by
      cases htok : tokenAt (c :: rest) with
      | none => rfl
      | some p => rw [htok] at h1; cases h1
    rw [substRe_cons_none m0 hn, ih h2]

theorem lookupDict_setMap (d : List (String × Value)) (k : String) (v : Value)
    (h : (lookupDict d k).isSome) :
    lookupDict (d.map (fun kv => if kv.1 = k then (kv.1, v) else kv)) k = some v := by
  induction d with
  | nil => simp [lookupDict] at h
  | cons kv rest ih =>
    obtain ⟨k1, v1⟩ := kv
    simp only [List.map_cons]
    by_cases hk : k1 = k
    · subst hk
      rw [if_pos rfl]
      simp [lookupDict]
    · rw [if_neg hk]
      have h2 : (lookupDict rest k).isSome := by
        simpa [lookupDict, hk] using h
      simp [lookupDict, hk, ih h2]

theorem lookupDict_setMap_ne (d : List (String × Value)) (k k2 : String) (v : Value)
    (h : k2 ≠ k) :
    lookupDict (d.map (fun kv => if kv.1 = k then (kv.1, v) else kv)) k2 =
      lookupDict d k2 := by
  induction d with
  | nil => rfl
  | cons kv rest ih =>
    obtain ⟨k1, v1⟩ := kv
    simp only [List.map_cons]
    by_cases hk : k1 = k
    · subst hk
      rw [if_pos rfl]
      have hne : ¬ (k1 = k2) := fun hh => h hh.symm
      simp [lookupDict, hne, ih]
    · rw [if_neg hk]
      by_cases hk2 : k1 = k2
      · subst hk2
        simp [lookupDict]
      · simp [lookupDict, hk2, ih]

theorem lookupDict_append_none (d1 d2 : List (String × Value)) (k : String)
    (h : lookupDict d1 k = none) :
    lookupDict (d1 ++ d2) k = lookupDict d2 k := by
  induction d1 with
  | nil => rfl
  | cons kv rest ih =>
    by_cases hk : kv.1 = k
    · simp [lookupDict, hk] at h
    · simp only [lookupDict, if_neg hk] at h
      simpa [lookupDict, hk] using ih h

theorem lookupDict_dictSet_self (d : List (String × Value)) (k : String) (v : Value) :
    lookupDict (dictSet d k v) k = some v := by
  unfold dictSet
  split
  · exact lookupDict_setMap d k v (by assumption)
  · rename_i h
    have hn : lookupDict d k = none := Option.not_isSome_iff_eq_none.mp h
    rw [lookupDict_append_none d [(k, v)] k hn]
    simp [lookupDict]

theorem lookupDict_append_single_ne (d : List (String × Value)) (k k2 : String)
    (v : Value) (h : k2 ≠ k) :
    lookupDict (d ++ [(k, v)]) k2 = lookupDict d k2 := by
  induction d with
  | nil =>
    have hne : ¬ (k = k2) := fun hh => h hh.symm
    simp [lookupDict, hne]
  | cons kv rest ih =>
    obtain ⟨k1, v1⟩ := kv
    by_cases hk2 : k1 = k2
    · simp [lookupDict, hk2]
    · simp [lookupDict, hk2, ih]

theorem lookupDict_dictSet_ne (d : List (String × Value)) (k k2 : String) (v : Value)
    (h : k2 ≠ k) :
    lookupDict (dictSet d k v) k2 = lookupDict d k2 := by
  unfold dictSet
  split
  · exact lookupDict_setMap_ne d k k2 v h
  · exact lookupDict_append_single_ne d k k2 v h

theorem lookupDict_condSet_ne (c : Prop) [Decidable c]
    (d : List (String × Value)) (k k2 : String) (v : Value) (h : k2 ≠ k) :
    lookupDict (if c then dictSet d k v else d) k2 = lookupDict d k2 := by
  split
  · exact lookupDict_dictSet_ne d k k2 v h
  · rfl

theorem iocLoop_reqs_prefix (a : IrisAlerter) (case_id : Value)
    (net : Nat → HttpResult) :
    ∀ iocs n reqs, ∃ extra, (iocLoop a case_id net n iocs reqs).1 = reqs ++ extra := by
  intro iocs
  induction iocs with
  | nil =>
    intro n reqs
    exact ⟨[], by simp [iocLoop]⟩
  | cons ioc rest ih =>
    intro n reqs
    cases hnet : net n with
    | exn e =>
      exact ⟨[mkIocReq a case_id ioc], by simp only [iocLoop, hnet]⟩
    | ok resp =>
      by_cases hs : resp.status_code ≠ 200
      · exact ⟨[mkIocReq a case_id ioc], by simp only [iocLoop, hnet, if_pos hs]⟩
      · obtain ⟨extra, hx⟩ := ih (n + 1) (reqs ++ [mkIocReq a case_id ioc])
        refine ⟨[mkIocReq a case_id ioc] ++ extra, ?_⟩
        simp only [iocLoop, hnet, if_neg hs]
        rw [hx, List.append_assoc]

theorem iocLoop_fail (a : IrisAlerter) (case_id : Value) (net : Nat → HttpResult) :
    ∀ iocs i n reqs,
      i < iocs.length →
      (∀ j, j < i → ∃ r, net (n + j) = HttpResult.ok r ∧ r.status_code = 200) →
      (∃ r, net (n + i) = HttpResult.ok r ∧ r.status_code ≠ 200) →
      iocLoop a case_id net n iocs reqs =
        (reqs ++ (iocs.take (i + 1)).map (mkIocReq a case_id),
         AlertOutcome.eaException
           ("Unable to add a new IOC to the case " ++ pyStr case_id)) := by
  intro iocs
  induction iocs with
  | nil =>
    intro i n reqs h
    simp at h
  | cons ioc rest ih =>
    intro i n reqs hlen hok hfail
    match i with
    | 0 =>
      obtain ⟨r, hr, hr2⟩ := hfail
      rw [show n + 0 = n from rfl] at hr
      simp only [iocLoop, hr, if_pos hr2]
      simp [List.take]
    | i + 1 =>
      obtain ⟨r0, hr0, hr0s⟩ := hok 0 (Nat.succ_pos i)
      rw [show n + 0 = n from rfl] at hr0
      simp only [iocLoop, hr0, if_neg (show ¬ (r0.status_code ≠ 200) from fun hh => hh hr0s)]
      have hrec := ih i (n + 1) (reqs ++ [mkIocReq a case_id ioc])
        (by simpa using Nat.lt_of_succ_lt_succ hlen)
        (fun j hj => by
          have := hok (j + 1) (Nat.succ_lt_succ hj)
          rwa [show n + (j + 1) = n + 1 + j by omega] at this)
        (by
          have := hfail
          rwa [show n + (i + 1) = n + 1 + i by omega] at this)
      rw [hrec, List.append_assoc]
      simp [List.take]

/-!
### Concrete fixtures shared by witnesses and counterexamples
-/

/-- A stand-in for the inherited `create_title` capability. -/
def stdTitle : List Value → Value := fun _ => Value.vstr "Title"

/-- A stand-in for the inherited `create_alert_body` capability. -/
def stdBody : List Value → Value := fun _ => Value.vstr "STANDARD BODY"

/-- A minimal rule carrying only the required options. -/
def baseRule : List (String × Value) :=
  [("iris_host", Value.vstr "iris.example"), ("iris_api_token", Value.vstr "tok")]

/-- The alerter constructed from `baseRule` (mode defaults to `alert`). -/
def baseAlerter : IrisAlerter := IrisAlerter.ofRule baseRule

/-- A network oracle answering every POST with 200 and a case id of 7. -/
def okNet : Nat → HttpResult := fun _ =>
  HttpResult.ok ⟨200, Value.vdict [("data", Value.vdict [("case_id", Value.vint 7)])]⟩

/-- A one-field match record. -/
def exMatch : Value := Value.vdict [("f", Value.vstr "X")]

/-- Lower-casing, used to state case-insensitive containment. -/
def lowerStr (s : String) : String := String.mk (s.data.map Char.toLower)

/-- An alerter whose configured mode is the upper-case string `ALERT`. -/
def upperAlerter : IrisAlerter := { baseAlerter with type := "ALERT" }

/-!
### C2: mode dispatch
-/

/-- C2 (amended): dispatch on the configured mode string is by **case-
sensitive** substring containment: the alert branch runs iff the mode
contains `alert` (its single POST goes to `/alerts/add`); the case branch
runs iff it contains `case` and not `alert` (first POST to
`/manage/cases/add`); if neither substring occurs, no HTTP submission
happens and the call returns silently. -/
theorem C2_mode_dispatch (a : IrisAlerter) (ct cb : List Value → Value)
    (now soc : String) (net : Nat → HttpResult) (matchList : List Value) :
    (hasSubstr ("alert".data) a.type.data = true →
      (a.alert ct cb now soc net matchList).1 =
        [⟨a.url ++ "/alerts/add", Value.vdict (a.make_alert ct cb now matchList)⟩]) ∧
    (hasSubstr ("alert".data) a.type.data = false →
      hasSubstr ("case".data) a.type.data = true →
      (a.alert ct cb now soc net matchList).1.head? =
        some ⟨a.url ++ "/manage/cases/add", Value.vdict (a.make_case soc matchList).1⟩) ∧
    (hasSubstr ("alert".data) a.type.data = false →
      hasSubstr ("case".data) a.type.data = false →
      a.alert ct cb now soc net matchList = ([], AlertOutcome.success)) := by
  refine ⟨?_, ?_, ?_⟩
  · intro hA
    cases hnet : net 0 with
    | exn e => simp only [IrisAlerter.alert, hA, eq_self_iff_true, if_true, hnet]
    | ok resp =>
      simp only [IrisAlerter.alert, hA, eq_self_iff_true, if_true, hnet]
      split <;> rfl
  · intro hA hC
    cases hnet : net 0 with
    | exn e =>
      simp only [IrisAlerter.alert, hA, hC, Bool.false_eq_true, if_false,
        eq_self_iff_true, if_true, hnet]
      rfl
    | ok resp =>
      simp only [IrisAlerter.alert, hA, hC, Bool.false_eq_true, if_false,
        eq_self_iff_true, if_true, hnet]
      by_cases hs : resp.status_code = 200
      · rw [if_pos hs]
        cases hg : pyGet resp.body "data" (Value.vstr "") with
        | error e => simp only [hg]; rfl
        | ok dataVal =>
          cases hg2 : pyGet dataVal "case_id" Value.vnull with
          | error e => simp only [hg, hg2]; rfl
          | ok cid =>
            simp only [hg, hg2]
            obtain ⟨extra, hx⟩ := iocLoop_reqs_prefix a cid net
              ((a.make_case soc matchList).2) 1
              [⟨a.url ++ "/manage/cases/add",
                Value.vdict (a.make_case soc matchList).1⟩]
            rw [hx]
            rfl
      · rw [if_neg hs]
        rfl
  · intro hA hC
    simp only [IrisAlerter.alert, hA, hC, Bool.false_eq_true, if_false]

/-- C2 witness: the default mode `alert` dispatches a single POST to
`/alerts/add`. -/
theorem C2_mode_dispatch_witness :
    hasSubstr ("alert".data) (baseAlerter.type.data) = true ∧
    (baseAlerter.alert stdTitle stdBody "2025-01-01T00:00:00" "abc123" okNet
      [exMatch]).1 =
      [⟨baseAlerter.url ++ "/alerts/add",
        Value.vdict (baseAlerter.make_alert stdTitle stdBody "2025-01-01T00:00:00"
          [exMatch])⟩] :=
  ⟨rfl, (C2_mode_dispatch baseAlerter stdTitle stdBody "2025-01-01T00:00:00" "abc123"
    okNet [exMatch]).1 rfl⟩

/-- C2 counterexample: with the configured mode `ALERT`, the mode string
contains `alert` case-insensitively (so the claim predicts the alert branch
runs), yet the invocation issues no request at all and returns silently —
the containment check of the source is case-sensitive. -/
theorem C2_counterexample :
    hasSubstr ("alert".data) (lowerStr upperAlerter.type).data = true ∧
    upperAlerter.alert stdTitle stdBody "2025-01-01T00:00:00" "abc123" okNet
      [exMatch] = ([], AlertOutcome.success) :=
  ⟨rfl, rfl⟩

/-!
### C10: case-id extraction on a 200 response without a `data` key
-/

/-- C10: in case mode, when the case-creation POST returns HTTP 200 with a
JSON dict body lacking the `data` key, the extraction falls back to the
empty string and calling `.get` on it raises an `AttributeError` — outside
the documented ConfigurationError/SubmissionError taxonomy — before any
IOC-attach call is issued (the trace is exactly the one case-creation
POST). -/
theorem C10_missing_data_attribute_error (a : IrisAlerter)
    (ct cb : List Value → Value) (now soc : String) (net : Nat → HttpResult)
    (matchList : List Value) (d : List (String × Value))
    (hA : hasSubstr ("alert".data) a.type.data = false)
    (hC : hasSubstr ("case".data) a.type.data = true)
    (hnet : net 0 = HttpResult.ok ⟨200, Value.vdict d⟩)
    (hd : lookupDict d "data" = none) :
    a.alert ct cb now soc net matchList =
      ([⟨a.url ++ "/manage/cases/add", Value.vdict (a.make_case soc matchList).1⟩],
       AlertOutcome.attributeError
         "AttributeError: str object has no attribute get") := by
  simp only [IrisAlerter.alert, hA, hC, Bool.false_eq_true, if_false,
    eq_self_iff_true, if_true, hnet]
  have h1 : pyGet (Value.vdict d) "data" (Value.vstr "") =
      Except.ok (Value.vstr "") := by
    simp [pyGet, dictGetD, hd]
  simp only [eq_self_iff_true, if_true, h1]
  rfl

/-- An alerter in case mode. -/
def caseAlerter : IrisAlerter := { baseAlerter with type := "case" }

/-- A network oracle answering 200 with a body that has no `data` key. -/
def noDataNet : Nat → HttpResult := fun _ =>
  HttpResult.ok ⟨200, Value.vdict [("x", Value.vint 1)]⟩

/-- C10 witness: the concrete scenario evaluates to the single case POST and
the AttributeError outcome. -/
theorem C10_missing_data_attribute_error_witness :
    caseAlerter.alert stdTitle stdBody "t" "abc123" noDataNet [exMatch] =
      ([⟨caseAlerter.url ++ "/manage/cases/add",
         Value.vdict (caseAlerter.make_case "abc123" [exMatch]).1⟩],
       AlertOutcome.attributeError
         "AttributeError: str object has no attribute get") :=
  C10_missing_data_attribute_error caseAlerter stdTitle stdBody "t" "abc123"
    noDataNet [exMatch] [("x", Value.vint 1)] rfl rfl rfl rfl

/-!
### C1: fail-fast IOC attachment and the error it raises
-/

/-- C1 (amended): in case mode, when the case-creation POST returns 200 and
the i-th IOC-attach POST is the first to return a non-200 status, no
IOC-attach call is issued for any record after i (the trace is the case POST
followed by exactly the first i+1 IOC POSTs), and the invocation fails with
a SubmissionError naming the case id; the failing IOC index is **not**
included in the error. -/
theorem C1_ioc_failfast (a : IrisAlerter) (ct cb : List Value → Value)
    (now soc : String) (net : Nat → HttpResult) (matchList : List Value)
    (d dd : List (String × Value)) (i : Nat)
    (hA : hasSubstr ("alert".data) a.type.data = false)
    (hC : hasSubstr ("case".data) a.type.data = true)
    (hnet : net 0 = HttpResult.ok ⟨200, Value.vdict d⟩)
    (hd : dictGetD d "data" (Value.vstr "") = Value.vdict dd)
    (hlen : i < (a.make_case soc matchList).2.length)
    (hok : ∀ j, j < i → ∃ r, net (1 + j) = HttpResult.ok r ∧ r.status_code = 200)
    (hfail : ∃ r, net (1 + i) = HttpResult.ok r ∧ r.status_code ≠ 200) :
    a.alert ct cb now soc net matchList =
      (⟨a.url ++ "/manage/cases/add", Value.vdict (a.make_case soc matchList).1⟩ ::
        ((a.make_case soc matchList).2.take (i + 1)).map
          (mkIocReq a (dictGetD dd "case_id" Value.vnull)),
       AlertOutcome.eaException
         ("Unable to add a new IOC to the case " ++
           pyStr (dictGetD dd "case_id" Value.vnull))) := by
  simp only [IrisAlerter.alert, hA, hC, Bool.false_eq_true, if_false,
    eq_self_iff_true, if_true, hnet]
  have h1 : pyGet (Value.vdict d) "data" (Value.vstr "") =
      Except.ok (Value.vdict dd) := by
    simp [pyGet, hd]
  have h2 : pyGet (Value.vdict dd) "case_id" Value.vnull =
      Except.ok (dictGetD dd "case_id" Value.vnull) := by
    simp [pyGet]
  simp only [eq_self_iff_true, if_true, h1, h2]
  rw [iocLoop_fail a (dictGetD dd "case_id" Value.vnull) net
    ((a.make_case soc matchList).2) i 1
    [⟨a.url ++ "/manage/cases/add", Value.vdict (a.make_case soc matchList).1⟩]
    hlen hok hfail]
  rfl

/-- A case-mode alerter with three IOC templates. -/
def c1Alerter : IrisAlerter :=
  { baseAlerter with
    type := "case"
    iocs := Value.vlist [
      Value.vdict [("ioc_type", Value.vstr "ip"), ("ioc_value", Value.vstr "src")],
      Value.vdict [("ioc_type", Value.vstr "domain"), ("ioc_value", Value.vstr "dom")],
      Value.vdict [("ioc_type", Value.vstr "hash"), ("ioc_value", Value.vstr "hh")]] }

/-- A match resolving all three IOC paths of `c1Alerter`. -/
def c1Match : Value := Value.vdict [
  ("src", Value.vstr "9.8.7.6"),
  ("dom", Value.vstr "evil.example"),
  ("hh", Value.vstr "deadbeef")]

/-- Case creation succeeds with case id 42; the first IOC POST succeeds, the
second one returns 404. -/
def c1Net : Nat → HttpResult := fun n =>
  if n = 0 then
    HttpResult.ok ⟨200, Value.vdict [("data", Value.vdict [("case_id", Value.vint 42)])]⟩
  else if n = 1 then HttpResult.ok ⟨200, Value.vdict []⟩
  else HttpResult.ok ⟨404, Value.vdict []⟩

/-- C1 witness: the general fail-fast theorem instantiated at the concrete
scenario (failing IOC index 1 of 3). -/
theorem C1_ioc_failfast_witness :
    c1Alerter.alert stdTitle stdBody "t" "abc123" c1Net [c1Match] =
      (⟨c1Alerter.url ++ "/manage/cases/add",
         Value.vdict (c1Alerter.make_case "abc123" [c1Match]).1⟩ ::
        ((c1Alerter.make_case "abc123" [c1Match]).2.take 2).map
          (mkIocReq c1Alerter
            (dictGetD [("case_id", Value.vint 42)] "case_id" Value.vnull)),
       AlertOutcome.eaException
         ("Unable to add a new IOC to the case " ++
           pyStr (dictGetD [("case_id", Value.vint 42)] "case_id" Value.vnull))) :=
  C1_ioc_failfast c1Alerter stdTitle stdBody "t" "abc123" c1Net [c1Match]
    [("data", Value.vdict [("case_id", Value.vint 42)])]
    [("case_id", Value.vint 42)] 1 rfl rfl rfl rfl (by decide)
    (by
      intro j hj
      have hj0 : j = 0 := by omega
      subst hj0
      exact ⟨⟨200, Value.vdict []⟩, rfl, rfl⟩)
    ⟨⟨404, Value.vdict []⟩, rfl, by decide⟩

/-- C1 counterexample: in the concrete scenario whose first failing
IOC-attach is at index 1 (of 3), the invocation issues exactly the case POST
plus two IOC POSTs and fails with the message
`Unable to add a new IOC to the case 42`, a string that does not contain the
digit `1` anywhere — so the error does not name the failing IOC index, as
the claim requires. -/
theorem C1_counterexample :
    (c1Alerter.alert stdTitle stdBody "t" "abc123" c1Net [c1Match]).2 =
      AlertOutcome.eaException "Unable to add a new IOC to the case 42" ∧
    (c1Alerter.alert stdTitle stdBody "t" "abc123" c1Net [c1Match]).1.length = 3 ∧
    hasSubstr ("1".data) ("Unable to add a new IOC to the case 42".data) = false :=
  ⟨rfl, rfl, rfl⟩

/-!
### C4: field-resolution order
-/

/-- C4: `lookup_field` returns the match value when the match lookup yields
a value; otherwise the rule option registered under the same name when
present; otherwise the supplied default — in that fixed order. -/
theorem C4_lookup_field_order (a : IrisAlerter) (m : Value) (f : String)
    (dflt : Value) :
    (∀ v, lookup_es_key m f = some v → a.lookup_field m f dflt = v) ∧
    (lookup_es_key m f = none →
      ∀ v, lookupDict a.rule f = some v → a.lookup_field m f dflt = v) ∧
    (lookup_es_key m f = none → lookupDict a.rule f = none →
      a.lookup_field m f dflt = dflt) := by
  refine ⟨?_, ?_, ?_⟩
  · intro v hv
    simp [IrisAlerter.lookup_field, hv]
  · intro h0 v hv
    simp [IrisAlerter.lookup_field, h0, dictGetD, hv]
  · intro h0 h1
    simp [IrisAlerter.lookup_field, h0, dictGetD, h1]

/-- C4 witness: the three resolution tiers at concrete inputs (the match
field `f`, the rule option `iris_host`, and an unregistered name). -/
theorem C4_lookup_field_order_witness :
    baseAlerter.lookup_field exMatch "f" (Value.vint 0) = Value.vstr "X" ∧
    baseAlerter.lookup_field exMatch "iris_host" (Value.vint 0) =
      Value.vstr "iris.example" ∧
    baseAlerter.lookup_field exMatch "nope" (Value.vint 0) = Value.vint 0 :=
  ⟨(C4_lookup_field_order baseAlerter exMatch "f" (Value.vint 0)).1
      (Value.vstr "X") rfl,
   (C4_lookup_field_order baseAlerter exMatch "iris_host" (Value.vint 0)).2.1
      rfl (Value.vstr "iris.example") rfl,
   (C4_lookup_field_order baseAlerter exMatch "nope" (Value.vint 0)).2.2 rfl rfl⟩

/-!
### C8: identity on token-free templates, None propagation
-/

/-- C8: formatting passes a `None` template through as `None`, and returns
any template in which the token pattern matches nowhere unchanged. -/
theorem C8_format_identity (matchList : List Value) :
    format_string_with_match Value.vnull matchList = Value.vnull ∧
    (∀ s : String, hasToken s.data = false →
      format_string_with_match (Value.vstr s) matchList = Value.vstr s) := by
  refine ⟨rfl, ?_⟩
  intro s hs
  show Value.vstr (String.mk (substRe (matchList.headD (Value.vdict [])) s.data)) =
    Value.vstr s
  rw [substRe_of_not_hasToken _ s.data hs, string_mk_data]

/-- C8 witness: `None` and a token-free template at concrete inputs. -/
theorem C8_format_identity_witness :
    format_string_with_match Value.vnull [exMatch] = Value.vnull ∧
    format_string_with_match (Value.vstr "plain text, no tokens") [exMatch] =
      Value.vstr "plain text, no tokens" :=
  ⟨(C8_format_identity [exMatch]).1,
   (C8_format_identity [exMatch]).2 "plain text, no tokens" rfl⟩

/-!
### C3: totality and the missing-field marker
-/

/-- C3: for a non-`None` template formatting always returns a string (the
embedding is total by construction — no exception path exists), and a token
whose dotted field path does not resolve in the first match record is
replaced by the visible `<MISSING: field.path>` marker at the token
position, with the surrounding text preserved. -/
theorem C3_format_total_missing_marker (m0 : Value) (ms : List Value) :
    (∀ t, t ≠ Value.vnull →
      ∃ s, format_string_with_match t (m0 :: ms) = Value.vstr s) ∧
    (∀ (pre post : List Char) (f t : String),
      (∀ c ∈ pre, c ≠ lbrace) → f.data ≠ [] → (∀ c ∈ f.data, c ≠ ']') →
      lookup_es_key m0 f = none →
      t.data = pre ++ lbrace :: '0' :: '[' :: (f.data ++ ']' :: rbrace :: post) →
      format_string_with_match (Value.vstr t) (m0 :: ms) =
        Value.vstr (String.mk (pre ++ (("<MISSING: " ++ f ++ ">").data ++
          substRe m0 post)))) := by
  constructor
  · intro t ht
    match t, ht with
    | Value.vbool b, _ => exact ⟨_, rfl⟩
    | Value.vint n, _ => exact ⟨_, rfl⟩
    | Value.vstr s, _ => exact ⟨_, rfl⟩
    | Value.vlist l, _ => exact ⟨_, rfl⟩
    | Value.vdict d, _ => exact ⟨_, rfl⟩
  · intro pre post f t hpre hf1 hf2 hlook ht
    show Value.vstr (String.mk (substRe m0 t.data)) = _
    rw [ht, substRe_append_of_no_lbrace m0 pre _ hpre,
      substRe_token m0 f.data post hf1 hf2, string_mk_data]
    simp [replace_field, hlook]

/-- C3 witness: a template with one unresolvable token formats to the
marker, with the surrounding text kept. -/
theorem C3_format_total_missing_marker_witness :
    format_string_with_match (Value.vstr "f: \x7b0[f2]\x7d.") [exMatch] =
      Value.vstr "f: <MISSING: f2>." := by
  have h := (C3_format_total_missing_marker exMatch []).2 ("f: ".data) (".".data)
    "f2" "f: \x7b0[f2]\x7d." (by decide) (by decide) (by decide) rfl rfl
  exact h

/-!
### C9: list values joined with ", "
-/

/-- C9: a token whose field path resolves in the first match record to a
list is substituted by the elements string-converted and joined with `", "`,
with all non-token text unchanged. -/
theorem C9_list_join (m0 : Value) (ms : List Value) (pre post : List Char)
    (f t : String) (items : List Value)
    (hpre : ∀ c ∈ pre, c ≠ lbrace) (hf1 : f.data ≠ [])
    (hf2 : ∀ c ∈ f.data, c ≠ ']')
    (hlook : lookup_es_key m0 f = some (Value.vlist items))
    (hpost : hasToken post = false)
    (ht : t.data = pre ++ lbrace :: '0' :: '[' :: (f.data ++ ']' :: rbrace :: post)) :
    format_string_with_match (Value.vstr t) (m0 :: ms) =
      Value.vstr (String.mk (pre ++ ((joinSep ", " (items.map pyStr)).data ++ post))) := by
  show Value.vstr (String.mk (substRe m0 t.data)) = _
  rw [ht, substRe_append_of_no_lbrace m0 pre _ hpre,
    substRe_token m0 f.data post hf1 hf2, string_mk_data,
    substRe_of_not_hasToken m0 post hpost]
  simp [replace_field, hlook]

/-- A match whose field `xs` holds the list `[a, b, c]`. -/
def listMatch : Value := Value.vdict
  [("xs", Value.vlist [Value.vstr "a", Value.vstr "b", Value.vstr "c"])]

/-- C9 witness: the token is replaced by `a, b, c` at the token position. -/
theorem C9_list_join_witness :
    format_string_with_match (Value.vstr "ip: \x7b0[xs]\x7d!") [listMatch] =
      Value.vstr "ip: a, b, c!" := by
  have h := C9_list_join listMatch [] ("ip: ".data) ("!".data) "xs"
    "ip: \x7b0[xs]\x7d!" [Value.vstr "a", Value.vstr "b", Value.vstr "c"]
    (by decide) (by decide) (by decide) rfl rfl rfl
  exact h

/-!
### C5: IOC record construction
-/

/-- C5 (amended): `make_iocs_records` excludes exactly those templates whose
`ioc_value` field path yields no value in the first match record; templates
whose path resolves — even to an empty string — are kept, in the original
template order, each as a copy with `ioc_value` overwritten by the resolved
value. -/
theorem C5_iocs_filter_order (a : IrisAlerter) (matchList : List Value) :
    a.make_iocs_records matchList =
      ((a.iocDicts).filter
        (fun r => (IrisAlerter.resolveIoc a matchList r).isSome)).map
        (fun r => dictSet r "ioc_value"
          ((IrisAlerter.resolveIoc a matchList r).getD Value.vnull)) := by
  unfold IrisAlerter.make_iocs_records
  generalize a.iocDicts = L
  induction L with
  | nil => rfl
  | cons r rest ih =>
    cases hr : IrisAlerter.resolveIoc a matchList r with
    | none => simp [List.filterMap_cons, List.filter_cons, hr, ih]
    | some v => simp [List.filterMap_cons, List.filter_cons, hr, ih]

/-- A case-mode alerter with a single IOC template whose path is `f`. -/
def c5Alerter : IrisAlerter :=
  { baseAlerter with
    iocs := Value.vlist
      [Value.vdict [("ioc_type", Value.vstr "ip"), ("ioc_value", Value.vstr "f")]] }

/-- A match record whose field `f` holds the empty string. -/
def emptyFieldMatch : Value := Value.vdict [("f", Value.vstr "")]

/-- C5 counterexample: the template's `ioc_value` path resolves to the empty
string — an "empty value" the claim says is excluded — yet the record is
kept, with `ioc_value` overwritten by that empty string (only an unresolved
path, the `None` sentinel, is dropped). -/
theorem C5_counterexample :
    lookup_es_key emptyFieldMatch "f" = some (Value.vstr "") ∧
    c5Alerter.make_iocs_records [emptyFieldMatch] =
      [[("ioc_type", Value.vstr "ip"), ("ioc_value", Value.vstr "")]] :=
  ⟨rfl, rfl⟩

/-!
### C6: optional keys of the alert payload
-/

/-- C6 (amended): in the alert payload the source-link, IOC-list and
context keys are present exactly when their configuration is truthy (absent
otherwise); but the note and tags keys are **always** present, holding null
when the corresponding option is unset. -/
theorem C6_optional_keys (a : IrisAlerter) (ct cb : List Value → Value)
    (now : String) (matchList : List Value) :
    (truthy a.alert_source_link = false →
      lookupDict (a.make_alert ct cb now matchList) "alert_source_link" = none) ∧
    (truthy a.alert_source_link = true →
      lookupDict (a.make_alert ct cb now matchList) "alert_source_link" =
        some a.alert_source_link) ∧
    (truthy a.iocs = false →
      lookupDict (a.make_alert ct cb now matchList) "alert_iocs" = none) ∧
    (truthy a.iocs = true →
      lookupDict (a.make_alert ct cb now matchList) "alert_iocs" =
        some (Value.vlist ((a.make_iocs_records matchList).map Value.vdict))) ∧
    (truthy a.alert_context = false →
      lookupDict (a.make_alert ct cb now matchList) "alert_context" = none) ∧
    (truthy a.alert_context = true →
      lookupDict (a.make_alert ct cb now matchList) "alert_context" =
        some (Value.vdict (a.make_alert_context_records matchList))) ∧
    lookupDict (a.make_alert ct cb now matchList) "alert_note" =
      some (format_string_with_match a.alert_note matchList) ∧
    lookupDict (a.make_alert ct cb now matchList) "alert_tags" =
      some (format_string_with_match a.alert_tags matchList) := by
  refine ⟨?_, ?_, ?_, ?_, ?_, ?_, ?_, ?_⟩
  · intro h
    simp only [IrisAlerter.make_alert, h, Bool.false_eq_true, if_false]
    rw [lookupDict_condSet_ne _ _ _ _ _ (by decide),
      lookupDict_condSet_ne _ _ _ _ _ (by decide),
      lookupDict_condSet_ne _ _ _ _ _ (by decide)]
    rfl
  · intro h
    simp only [IrisAlerter.make_alert]
    rw [lookupDict_condSet_ne _ _ _ _ _ (by decide),
      lookupDict_condSet_ne _ _ _ _ _ (by decide),
      if_pos h, lookupDict_dictSet_self]
  · intro h
    simp only [IrisAlerter.make_alert, h, Bool.false_eq_true, if_false]
    rw [lookupDict_condSet_ne _ _ _ _ _ (by decide),
      lookupDict_condSet_ne _ _ _ _ _ (by decide),
      lookupDict_condSet_ne _ _ _ _ _ (by decide)]
    rfl
  · intro h
    simp only [IrisAlerter.make_alert]
    rw [lookupDict_condSet_ne _ _ _ _ _ (by decide),
      if_pos h, lookupDict_dictSet_self]
  · intro h
    simp only [IrisAlerter.make_alert, h, Bool.false_eq_true, if_false]
    rw [lookupDict_condSet_ne _ _ _ _ _ (by decide),
      lookupDict_condSet_ne _ _ _ _ _ (by decide),
      lookupDict_condSet_ne _ _ _ _ _ (by decide)]
    rfl
  · intro h
    simp only [IrisAlerter.make_alert]
    rw [if_pos h, lookupDict_dictSet_self]
  · simp only [IrisAlerter.make_alert]
    rw [lookupDict_condSet_ne _ _ _ _ _ (by decide),
      lookupDict_condSet_ne _ _ _ _ _ (by decide),
      lookupDict_condSet_ne _ _ _ _ _ (by decide),
      lookupDict_condSet_ne _ _ _ _ _ (by decide)]
    rfl
  · simp only [IrisAlerter.make_alert]
    rw [lookupDict_condSet_ne _ _ _ _ _ (by decide),
      lookupDict_condSet_ne _ _ _ _ _ (by decide),
      lookupDict_condSet_ne _ _ _ _ _ (by decide),
      lookupDict_condSet_ne _ _ _ _ _ (by decide)]
    rfl

/-- C6 witness: the optional-key theorem at a concrete unconfigured
alerter: the source-link and IOC keys are absent, the note key present. -/
theorem C6_optional_keys_witness :
    lookupDict (baseAlerter.make_alert stdTitle stdBody "t" [exMatch])
      "alert_source_link" = none ∧
    lookupDict (baseAlerter.make_alert stdTitle stdBody "t" [exMatch])
      "alert_iocs" = none ∧
    lookupDict (baseAlerter.make_alert stdTitle stdBody "t" [exMatch])
      "alert_note" = some (format_string_with_match baseAlerter.alert_note [exMatch]) :=
  ⟨(C6_optional_keys baseAlerter stdTitle stdBody "t" [exMatch]).1 rfl,
   (C6_optional_keys baseAlerter stdTitle stdBody "t" [exMatch]).2.2.1 rfl,
   (C6_optional_keys baseAlerter stdTitle stdBody "t" [exMatch]).2.2.2.2.2.2.1⟩

/-- C6 counterexample: with no note or tags configured, the payload still
contains the `alert_note` and `alert_tags` keys, mapped to null — the claim
requires those keys to be absent. -/
theorem C6_counterexample :
    baseAlerter.alert_note = Value.vnull ∧
    baseAlerter.alert_tags = Value.vnull ∧
    lookupDict (baseAlerter.make_alert stdTitle stdBody "t" [exMatch])
      "alert_note" = some Value.vnull ∧
    lookupDict (baseAlerter.make_alert stdTitle stdBody "t" [exMatch])
      "alert_tags" = some Value.vnull :=
  ⟨rfl, rfl, rfl, rfl⟩

/-!
### C7: the description fallback
-/

/-- C7 (amended): the `alert_description` fallback is decided by the
truthiness of the *configured* description option: when it is unset (or the
empty string) the payload carries the caller-supplied standard alert body
built from the matches; otherwise it carries the formatted description
template — even when that formatted result is the empty string. -/
theorem C7_description_fallback (a : IrisAlerter) (ct cb : List Value → Value)
    (now : String) (matchList : List Value) :
    (truthy a.description = false →
      lookupDict (a.make_alert ct cb now matchList) "alert_description" =
        some (cb matchList)) ∧
    (truthy a.description = true →
      lookupDict (a.make_alert ct cb now matchList) "alert_description" =
        some (format_string_with_match a.description matchList)) := by
  constructor
  · intro h
    simp only [IrisAlerter.make_alert]
    rw [lookupDict_condSet_ne _ _ _ _ _ (by decide),
      lookupDict_condSet_ne _ _ _ _ _ (by decide),
      lookupDict_condSet_ne _ _ _ _ _ (by decide),
      if_pos h, lookupDict_dictSet_self]
  · intro h
    simp only [IrisAlerter.make_alert]
    rw [lookupDict_condSet_ne _ _ _ _ _ (by decide),
      lookupDict_condSet_ne _ _ _ _ _ (by decide),
      lookupDict_condSet_ne _ _ _ _ _ (by decide),
      if_neg (by simp [h])]
    rfl

/-- C7 witness: with no description configured, the payload's description is
the standard body. -/
theorem C7_description_fallback_witness :
    lookupDict (baseAlerter.make_alert stdTitle stdBody "t" [exMatch])
      "alert_description" = some (stdBody [exMatch]) :=
  (C7_description_fallback baseAlerter stdTitle stdBody "t" [exMatch]).1 rfl

/-- An alerter whose description is a single-token template. -/
def c7Alerter : IrisAlerter :=
  { baseAlerter with description := Value.vstr "\x7b0[f]\x7d" }

/-- C7 counterexample: on a match where the configured description template
formats (resolves) to the empty string, the payload keeps that empty string
as `alert_description` instead of falling back to the standard alert body. -/
theorem C7_counterexample :
    format_string_with_match c7Alerter.description [emptyFieldMatch] =
      Value.vstr "" ∧
    lookupDict (c7Alerter.make_alert stdTitle stdBody "t" [emptyFieldMatch])
      "alert_description" = some (Value.vstr "") ∧
    stdBody [emptyFieldMatch] ≠ Value.vstr "" := by
  refine ⟨rfl, rfl, ?_⟩
  intro hh
  simp only [stdBody, Value.vstr.injEq] at hh
  exact absurd hh (by decide)
